import Mathlib

/-!
Verification of the mainframe metrics simulator (src/app.py) against its
natural-language specification.  Python floats are modelled as rationals,
Python strings as Lean strings (or lists of characters where character-level
processing matters), and every call to the pseudo-random generator is an
explicit input: a draw record fed to the function that consumes it.  Under a
fixed seed the generator produces a fixed draw sequence, so two runs with the
same seed correspond to two evaluations on the same draw records.
-/

namespace MainframeSim

/-- Translation of `clamp` (src/app.py line 9): `max(lo, min(hi, value))`. -/
def clamp (value lo hi : ℚ) : ℚ := max lo (min hi value)

/-- Whether a character is stripped by Python `str.strip()`. -/
def stripped (c : Char) : Bool := c.isWhitespace

/-- Splitting of a character sequence at commas, the model of
Python `raw.split(",")` in `env_list` (src/app.py line 15). -/
def splitCommas : List Char → List (List Char)
  | [] => [[]]
  | c :: rest =>
    match splitCommas rest, decide (c = ',') with
    | done, true => [] :: done
    | cur :: done, false => (c :: cur) :: done
    | [], false => [[c]]

/-- Model of Python `str.strip()`: drop whitespace at both ends. -/
def strip (cs : List Char) : List Char :=
  ((cs.dropWhile stripped).reverse.dropWhile stripped).reverse

/-- The comprehension `[p.strip() for p in raw.split(",") if p.strip()]`
from `env_list` (src/app.py line 15). -/
def parseCsv (raw : List Char) : List (List Char) :=
  ((splitCommas raw).map strip).filter (fun p => ¬ p.isEmpty)

/-- Translation of `env_list` (src/app.py lines 13-16): parse the raw
environment value, falling back to the parsed default when the result is
empty (`parts or [...]`). -/
def env_list (raw default_csv : List Char) : List (List Char) :=
  match parseCsv raw with
  | [] => parseCsv default_csv
  | parts => parts

/-- The characters of the default LPAR list "LPAR1" (src/app.py line 20). -/
def defaultLparsCsv : List Char := ['L', 'P', 'A', 'R', '1']

/-- The fixed address-space catalog (src/app.py lines 107-118). -/
def ADDRESS_SPACES : List String :=
  ["DFHSIP", "DBM1", "MSTR", "TCPIP", "VTAM", "JES2", "SMF", "RMF", "IMSCTL", "MQM"]

/-- The fixed service catalog (src/app.py line 120). -/
def SERVICES : List String := ["CICS", "DB2", "IMS", "MQ"]

/-- One gibibyte, `1024 ** 3` (src/app.py line 126). -/
def GiB : ℚ := 1024 ^ 3

/-- Memory-size tiers in GiB offered to `random.choice` (src/app.py line 126). -/
def MEM_TIERS : List ℚ := [32, 48, 64, 96, 128]

/-- MIPS-capacity tiers offered to `random.choice` (src/app.py line 131). -/
def MIPS_TIERS : List ℚ := [8000, 10000, 12000, 16000]

/-- The per-LPAR mutable record built by `init_state` (src/app.py
lines 128-137), field for field in the order of the Python dict, with
`mem_total` and `mips_cap` just as further fields. -/
structure LparState where
  cpu : ℚ
  ziip : ℚ
  mips_cap : ℚ
  iops : ℚ
  mem_total : ℚ
  mem_used : ℚ
  jobq : ℚ
  cfq : ℚ
  deriving DecidableEq

/-- The random draws consumed by `init_state` for one LPAR (src/app.py
lines 126-136): two `random.choice` results and six `random.uniform`
results, each an explicit input. -/
structure InitDraws where
  memChoice : ℚ
  usedFrac : ℚ
  cpu0 : ℚ
  ziip0 : ℚ
  mipsChoice : ℚ
  iops0 : ℚ
  jobq0 : ℚ
  cfq0 : ℚ

/-- The body of the `init_state` loop for a single LPAR (src/app.py
lines 126-137).  Fields in `LparState` order: cpu, ziip, mips_cap, iops,
mem_total, mem_used, jobq, cfq. -/
def initLpar (d : InitDraws) : LparState :=
  ⟨d.cpu0, d.ziip0, d.mipsChoice, d.iops0,
   d.memChoice * GiB, d.memChoice * GiB * d.usedFrac,
   d.jobq0, d.cfq0⟩

/-- Translation of `init_state` (src/app.py lines 123-138): one record per
configured LPAR. -/
def init_state (lpars : List String) (draws : List InitDraws) :
    List (String × LparState) :=
  (lpars.zip draws).map (fun p => (p.1, initLpar p.2))

/-- The `random.uniform` draws consumed by the per-tick random walks of one
LPAR (src/app.py lines 155-159 and 165). -/
structure WalkDraws where
  dcpu : ℚ
  dziip : ℚ
  diops : ℚ
  djobq : ℚ
  dcfq : ℚ
  memDrift : ℚ

/-- The random-walk portion of one tick for one LPAR (src/app.py
lines 155-159 and 164-166).  Fields in `LparState` order: cpu, ziip,
mips_cap (unchanged), iops, mem_total (unchanged), mem_used, jobq, cfq. -/
def walkStep (s : LparState) (d : WalkDraws) : LparState :=
  ⟨clamp (s.cpu + d.dcpu + (35 - s.cpu) * 0.03) 0 100,
   clamp (s.ziip + d.dziip + (25 - s.ziip) * 0.03) 0 100,
   s.mips_cap,
   clamp (s.iops + d.diops) 0 8000,
   s.mem_total,
   clamp (s.mem_used + d.memDrift * GiB) (s.mem_total * 0.30) (s.mem_total * 0.97),
   clamp (s.jobq + d.djobq) 0 200,
   clamp (s.cfq + d.dcfq + (10 - s.cfq) * 0.02) 0 80⟩

/-- Iterated random walks: the state after a list of ticks. -/
def walkIter (s : LparState) : List WalkDraws → LparState
  | [] => s
  | d :: rest => walkIter (walkStep s d) rest

/-- `mips = mips_cap * (cpu / 100.0) * uniform(0.85, 1.15)`
(src/app.py line 162), evaluated on the post-walk state. -/
def mipsConsumed (s : LparState) (noise : ℚ) : ℚ :=
  s.mips_cap * (s.cpu / 100) * noise

/-- `wsum = sum(weights) or 1.0` (src/app.py line 180): Python `or`
replaces a zero (falsy) sum by 1.0. -/
def wsumGuard (q : ℚ) : ℚ := if q = 0 then 1 else q

/-- One address space's CPU share (src/app.py lines 182-183):
`clamp(cpu * (w / wsum) * uniform(0.7, 1.3), 0, 100)`. -/
def asCpuShare (cpu w wsum noise : ℚ) : ℚ :=
  clamp (cpu * (w / wsum) * noise) 0 100

/-- Python `int()` applied to a rational: truncation toward zero. -/
def pyInt (q : ℚ) : ℤ := if q < 0 then ⌈q⌉ else ⌊q⌋

/-- `base = 250 if service == "CICS" else 160` (src/app.py line 193). -/
def baseRate (service : String) : ℚ := if service = "CICS" then 250 else 160

/-- `tps = base * (0.5 + cpu / 200.0) * uniform(0.8, 1.3)`
(src/app.py line 194). -/
def tps (service : String) (cpu noise : ℚ) : ℚ :=
  baseRate service * (0.5 + cpu / 200) * noise

/-- `count = int(max(10, tps * INTERVAL / 5.0))` (src/app.py line 195). -/
def txnCount (service : String) (cpu noise interval : ℚ) : ℤ :=
  pyInt (max 10 (tps service cpu noise * interval / 5))

/-- Modelled from the spec wording, for the C3 refinement comparison only:
`count = max(10, round(tps * interval_seconds / 5.0))` with genuine
rounding, which the spec asserts in place of the code's truncation. -/
def specTxnCount (service : String) (cpu noise interval : ℚ) : ℤ :=
  max 10 (round (tps service cpu noise * interval / 5))

/-- Log-normal location parameter per service (src/app.py lines 198-205). -/
def serviceMu (service : String) : ℚ :=
  if service = "CICS" then -3.2
  else if service = "DB2" then -2.8
  else if service = "IMS" then -3.0
  else -3.4

/-- Log-normal scale parameter per service (src/app.py lines 198-205). -/
def serviceSigma (service : String) : ℚ :=
  if service = "CICS" then 0.55
  else if service = "DB2" then 0.60
  else if service = "IMS" then 0.55
  else 0.50

/-- The queue-pressure multiplier `lat *= (1.0 + (jobq / 400.0))`
(src/app.py line 208) applied to a raw latency draw. -/
def applyPressure (jobq lat : ℚ) : ℚ := lat * (1 + jobq / 400)

/-- One emitted value: metric name, secondary label (address space or
service; empty for plain per-LPAR gauges), value. -/
abbrev Entry := String × String × ℚ

/-- All random draws consumed by one tick for one LPAR beyond the walks:
the MIPS noise, the ten skew weights, the per-address-space noises, and the
per-service throughput noise and log-normal latency draws.  A latency draw
is an uninterpreted function of the distribution parameters and the draw
index, standing for `random.lognormvariate(mu, sigma)`. -/
structure TickDraws where
  walk : WalkDraws
  mipsNoise : ℚ
  asWeights : List ℚ
  asNoise : ℕ → ℚ
  rssNoise : ℕ → ℚ
  txnNoise : String → ℚ
  latDraw : ℚ → ℚ → ℕ → ℚ

/-- The seven per-LPAR gauges set before the uptime gauge, in emission
order (src/app.py lines 168-174). -/
def coreGauges (s : LparState) (noise : ℚ) : List Entry :=
  [("mainframe_cpu_utilization_percent", "", s.cpu),
   ("mainframe_ziip_utilization_percent", "", s.ziip),
   ("mainframe_mips_consumed", "", mipsConsumed s noise),
   ("mainframe_io_ops_per_sec", "", s.iops),
   ("mainframe_memory_used_bytes", "", s.mem_used),
   ("mainframe_job_queue_depth", "", s.jobq),
   ("mainframe_cf_queue_depth", "", s.cfq)]

/-- The uptime gauge `UPTIME.set(now - started)` (src/app.py line 175);
its value is wall-clock elapsed time, an input of the tick. -/
def uptimeEntry (uptime : ℚ) : Entry := ("mainframe_uptime_seconds", "", uptime)

/-- The address-space loop of one tick (src/app.py lines 179-188): CPU
share and RSS per catalog entry, zipped against the skew weights. -/
def asEntries (s : LparState) (d : TickDraws) : List Entry :=
  ((ADDRESS_SPACES.zip d.asWeights).enum).flatMap (fun p =>
    [("mainframe_address_space_cpu_percent", p.2.1,
        asCpuShare s.cpu p.2.2 (wsumGuard d.asWeights.sum) (d.asNoise p.1)),
     ("mainframe_address_space_rss_bytes", p.2.1,
        s.mem_used / (ADDRESS_SPACES.length : ℚ) * d.rssNoise p.1)])

/-- The inner transaction loop for one service (src/app.py lines 196-211):
`count` iterations, each observing one pressured latency and incrementing
the transaction counter by 1. -/
def serviceTxnEntries (service : String) (cpu jobq tn : ℚ) (ld : ℕ → ℚ)
    (interval : ℚ) : List Entry :=
  (List.range (txnCount service cpu tn interval).toNat).flatMap (fun k =>
    [("mainframe_transaction_response_seconds", service,
        applyPressure jobq (ld k)),
     ("mainframe_transactions_total", service, 1)])

/-- The service loop of one tick (src/app.py lines 191-211). -/
def txnEntries (s : LparState) (d : TickDraws) (interval : ℚ) : List Entry :=
  SERVICES.flatMap (fun svc =>
    serviceTxnEntries svc s.cpu s.jobq (d.txnNoise svc)
      (d.latDraw (serviceMu svc) (serviceSigma svc)) interval)

/-- One tick of the loop body for one LPAR (src/app.py lines 151-211):
advance the walks, then emit gauges, uptime, address-space values and
transaction observations in program order; the post-walk state is the
LPAR's state for the next tick. -/
def tickLpar (s : LparState) (d : TickDraws) (interval uptime : ℚ) :
    List Entry × LparState :=
  (coreGauges (walkStep s d.walk) d.mipsNoise ++ [uptimeEntry uptime] ++
     asEntries (walkStep s d.walk) d ++ txnEntries (walkStep s d.walk) d interval,
   walkStep s d.walk)

/-- One full tick over every configured LPAR (src/app.py lines 151-211):
states are zipped with their per-LPAR draw records, emissions concatenate
in LPAR order. -/
def tickConfig (states : List LparState) (ds : List TickDraws)
    (interval uptime : ℚ) : List Entry × List LparState :=
  ((states.zip ds).flatMap (fun p => (tickLpar p.1 p.2 interval uptime).fst),
   (states.zip ds).map (fun p => (tickLpar p.1 p.2 interval uptime).snd))

/-- A run of the `while True` loop (src/app.py lines 149-213) for a finite
schedule of ticks: each schedule item carries the tick's per-LPAR draw
records and the wall-clock uptime observed at that tick. -/
def runConfig (states : List LparState) (interval : ℚ) :
    List (List TickDraws × ℚ) → List Entry
  | [] => []
  | du :: rest =>
    (tickConfig states du.1 interval du.2).fst ++
      runConfig (tickConfig states du.1 interval du.2).snd interval rest

/-- Predicate selecting every emission except the uptime gauge. -/
def nonUptime (e : Entry) : Bool := !(e.1 == "mainframe_uptime_seconds")

/-- The declared closed intervals of the bounded scalars (spec section 3):
cpu and ziip in [0, 100], iops in [0, 8000], jobq in [0, 200], cfq in
[0, 80], mem_used in [0.30 * mem_total, 0.97 * mem_total]. -/
def inBounds (s : LparState) : Prop :=
  (0 ≤ s.cpu ∧ s.cpu ≤ 100) ∧ (0 ≤ s.ziip ∧ s.ziip ≤ 100) ∧
  (0 ≤ s.iops ∧ s.iops ≤ 8000) ∧ (0 ≤ s.jobq ∧ s.jobq ≤ 200) ∧
  (0 ≤ s.cfq ∧ s.cfq ≤ 80) ∧
  (s.mem_total * 0.30 ≤ s.mem_used ∧ s.mem_used ≤ s.mem_total * 0.97)

/-- A concrete state used to instantiate theorems: fields in `LparState`
order (cpu, ziip, mips_cap, iops, mem_total, mem_used, jobq, cfq). -/
def sampleState : LparState := ⟨35, 25, 8000, 1000, 32 * GiB, 16 * GiB, 10, 5⟩

/-- A concrete walk-draw record with every draw at zero. -/
def sampleWalk : WalkDraws := ⟨0, 0, 0, 0, 0, 0⟩

/-- A concrete tick-draw record with unit weights and noises. -/
def sampleDraws : TickDraws :=
  ⟨sampleWalk, 1, List.replicate 10 1, fun _ => 1, fun _ => 1, fun _ => 1,
   fun _ _ _ => 1⟩

/-- A concrete initialization-draw record inside every documented range. -/
def sampleInit : InitDraws := ⟨32, 0.5, 40, 30, 8000, 1000, 10, 5⟩

theorem clamp_bounds (v lo hi : ℚ) (h : lo ≤ hi) :
    lo ≤ clamp v lo hi ∧ clamp v lo hi ≤ hi :=
  ⟨le_max_left _ _, max_le h (min_le_left _ _)⟩

/-- Claim C1: after every tick, each bounded scalar of each LPAR stays in
its declared closed interval — cpu and ziip in [0, 100], iops in [0, 8000],
jobq in [0, 200], cfq in [0, 80] and mem_used in
[0.30 * mem_total, 0.97 * mem_total] — provided it satisfied its interval
before the tick. -/
theorem C1_tick_preserves_bounds (s : LparState) (d : WalkDraws)
    (h : inBounds s) : inBounds (walkStep s d) := by
  obtain ⟨hc, hz, hi, hj, hf, hm⟩ := h
  exact ⟨clamp_bounds _ _ _ (by norm_num), clamp_bounds _ _ _ (by norm_num),
    clamp_bounds _ _ _ (by norm_num), clamp_bounds _ _ _ (by norm_num),
    clamp_bounds _ _ _ (by norm_num), clamp_bounds _ _ _ (le_trans hm.1 hm.2)⟩

/-- Witness for C1 at a concrete in-bounds state and zero draws. -/
theorem C1_tick_preserves_bounds_witness :
    inBounds sampleState ∧ inBounds (walkStep sampleState sampleWalk) :=
  ⟨by norm_num [inBounds, sampleState, GiB],
   C1_tick_preserves_bounds sampleState sampleWalk
     (by norm_num [inBounds, sampleState, GiB])⟩

/-- Claim C5 counterexample: with lo = 3 > hi = 1 the clamp does not fail
fast — it silently produces the value 3, refuting the claim that the
bounded-walk clamp never produces a value when lo > hi. -/
theorem C5_counterexample : (1 : ℚ) < 3 ∧ clamp 5 3 1 = 3 := by
  constructor
  · norm_num
  · unfold clamp
    rw [min_eq_left (by norm_num : (1 : ℚ) ≤ 5), max_eq_left (by norm_num : (1 : ℚ) ≤ 3)]

/-- Claim C5 as amended: when the bounds collapse to lo > hi, `clamp`
silently returns lo for every input value — a total function with no
failure, not a fail-fast invariant violation. -/
theorem C5_degenerate_clamp_returns_lo (v lo hi : ℚ) (h : hi < lo) :
    clamp v lo hi = lo := by
  unfold clamp
  exact max_eq_left (le_trans (min_le_left _ _) (le_of_lt h))

/-- Witness for the amended C5 at value 0, lo = 7, hi = 2. -/
theorem C5_degenerate_clamp_returns_lo_witness :
    (2 : ℚ) < 7 ∧ clamp 0 7 2 = 7 :=
  ⟨by norm_num, C5_degenerate_clamp_returns_lo 0 7 2 (by norm_num)⟩

/-- Claim C7: initialization draws mem_total from exactly the tier set
{32, 48, 64, 96, 128} GiB, sets mem_used = mem_total * uniform(0.45, 0.75),
draws mips_cap from exactly {8000, 10000, 12000, 16000}, and starts
cpu in [10, 70], ziip in [5, 60], iops in [500, 3500], jobq in [0, 40] and
cfq in [1, 20]. -/
theorem C7_init_ranges (d : InitDraws)
    (hmem : d.memChoice ∈ MEM_TIERS)
    (hfrac : 0.45 ≤ d.usedFrac ∧ d.usedFrac ≤ 0.75)
    (hmips : d.mipsChoice ∈ MIPS_TIERS)
    (hcpu : 10 ≤ d.cpu0 ∧ d.cpu0 ≤ 70)
    (hziip : 5 ≤ d.ziip0 ∧ d.ziip0 ≤ 60)
    (hiops : 500 ≤ d.iops0 ∧ d.iops0 ≤ 3500)
    (hjobq : 0 ≤ d.jobq0 ∧ d.jobq0 ≤ 40)
    (hcfq : 1 ≤ d.cfq0 ∧ d.cfq0 ≤ 20) :
    (initLpar d).mem_total ∈ MEM_TIERS.map (fun t => t * GiB) ∧
    (initLpar d).mem_used = (initLpar d).mem_total * d.usedFrac ∧
    (0.45 ≤ d.usedFrac ∧ d.usedFrac ≤ 0.75) ∧
    (initLpar d).mips_cap ∈ MIPS_TIERS ∧
    (10 ≤ (initLpar d).cpu ∧ (initLpar d).cpu ≤ 70) ∧
    (5 ≤ (initLpar d).ziip ∧ (initLpar d).ziip ≤ 60) ∧
    (500 ≤ (initLpar d).iops ∧ (initLpar d).iops ≤ 3500) ∧
    (0 ≤ (initLpar d).jobq ∧ (initLpar d).jobq ≤ 40) ∧
    (1 ≤ (initLpar d).cfq ∧ (initLpar d).cfq ≤ 20) :=
  ⟨List.mem_map.mpr ⟨d.memChoice, hmem, rfl⟩, rfl, hfrac, hmips, hcpu, hziip,
   hiops, hjobq, hcfq⟩

/-- Witness for C7 at a concrete draw record. -/
theorem C7_init_ranges_witness :
    (sampleInit.memChoice ∈ MEM_TIERS ∧ sampleInit.mipsChoice ∈ MIPS_TIERS) ∧
    ((initLpar sampleInit).mem_total ∈ MEM_TIERS.map (fun t => t * GiB) ∧
      (initLpar sampleInit).mem_used =
        (initLpar sampleInit).mem_total * sampleInit.usedFrac ∧
      (0.45 ≤ sampleInit.usedFrac ∧ sampleInit.usedFrac ≤ 0.75) ∧
      (initLpar sampleInit).mips_cap ∈ MIPS_TIERS ∧
      (10 ≤ (initLpar sampleInit).cpu ∧ (initLpar sampleInit).cpu ≤ 70) ∧
      (5 ≤ (initLpar sampleInit).ziip ∧ (initLpar sampleInit).ziip ≤ 60) ∧
      (500 ≤ (initLpar sampleInit).iops ∧ (initLpar sampleInit).iops ≤ 3500) ∧
      (0 ≤ (initLpar sampleInit).jobq ∧ (initLpar sampleInit).jobq ≤ 40) ∧
      (1 ≤ (initLpar sampleInit).cfq ∧ (initLpar sampleInit).cfq ≤ 20)) :=
  ⟨⟨by simp [sampleInit, MEM_TIERS], by simp [sampleInit, MIPS_TIERS]⟩,
   C7_init_ranges sampleInit (by simp [sampleInit, MEM_TIERS])
     (by norm_num [sampleInit]) (by simp [sampleInit, MIPS_TIERS])
     (by norm_num [sampleInit]) (by norm_num [sampleInit])
     (by norm_num [sampleInit]) (by norm_num [sampleInit])
     (by norm_num [sampleInit])⟩

/-- Claim C8: the per-tick transaction count of every service is at least
10 for every cpu value in [0, 100]. -/
theorem C8_txn_count_floor (service : String) (cpu noise interval : ℚ)
    (h0 : 0 ≤ cpu) (h100 : cpu ≤ 100) :
    10 ≤ txnCount service cpu noise interval := by
  unfold txnCount pyInt
  have hm : (10 : ℚ) ≤ max 10 (tps service cpu noise * interval / 5) :=
    le_max_left _ _
  rw [if_neg (not_lt.mpr (le_trans (by norm_num) hm))]
  exact Int.le_floor.mpr (by exact_mod_cast hm)

/-- Witness for C8 at the CICS service with cpu = 50. -/
theorem C8_txn_count_floor_witness :
    ((0 : ℚ) ≤ 50 ∧ (50 : ℚ) ≤ 100) ∧ 10 ≤ txnCount ("CICS") 50 1 5 :=
  ⟨⟨by norm_num, by norm_num⟩,
   C8_txn_count_floor ("CICS") 50 1 5 (by norm_num) (by norm_num)⟩

theorem walkIter_static (s : LparState) (ds : List WalkDraws) :
    (walkIter s ds).mem_total = s.mem_total ∧
    (walkIter s ds).mips_cap = s.mips_cap := by
  induction ds generalizing s with
  | nil => exact ⟨rfl, rfl⟩
  | cons a t ih => exact ih (walkStep s a)

/-- Claim C9: a tick never changes mem_total or mips_cap — the state
returned by a tick, and by any sequence of walk steps, keeps both fields
exactly as set at initialization. -/
theorem C9_static_fields_frame (s : LparState) (d : TickDraws) (i u : ℚ)
    (ds : List WalkDraws) :
    ((tickLpar s d i u).snd.mem_total = s.mem_total ∧
      (tickLpar s d i u).snd.mips_cap = s.mips_cap) ∧
    (walkIter s ds).mem_total = s.mem_total ∧
    (walkIter s ds).mips_cap = s.mips_cap :=
  ⟨⟨rfl, rfl⟩, (walkIter_static s ds).1, (walkIter_static s ds).2⟩

/-- Claim C10: the address-space share denominator is never zero — a zero
weight sum is replaced by 1.0 — and after clamping the per-address-space
CPU share always lies in [0, 100], for any cpu in [0, 100]. -/
theorem C10_share_safe (ws : List ℚ) (cpu w noise : ℚ)
    (h0 : 0 ≤ cpu) (h100 : cpu ≤ 100) :
    wsumGuard ws.sum ≠ 0 ∧ (ws.sum = 0 → wsumGuard ws.sum = 1) ∧
    0 ≤ asCpuShare cpu w (wsumGuard ws.sum) noise ∧
    asCpuShare cpu w (wsumGuard ws.sum) noise ≤ 100 := by
  refine ⟨?_, fun hz => ?_, ?_, ?_⟩
  · unfold wsumGuard
    split
    · norm_num
    · assumption
  · unfold wsumGuard
    rw [if_pos hz]
  · exact (clamp_bounds _ _ _ (by norm_num)).1
  · exact (clamp_bounds _ _ _ (by norm_num)).2

/-- Witness for C10 at ten zero weights (the degenerate sum) and cpu = 100. -/
theorem C10_share_safe_witness :
    ((0 : ℚ) ≤ 100 ∧ (100 : ℚ) ≤ 100) ∧
    (wsumGuard (List.replicate 10 (0 : ℚ)).sum ≠ 0 ∧
      ((List.replicate 10 (0 : ℚ)).sum = 0 →
        wsumGuard (List.replicate 10 (0 : ℚ)).sum = 1) ∧
      0 ≤ asCpuShare 100 0 (wsumGuard (List.replicate 10 (0 : ℚ)).sum) 1 ∧
      asCpuShare 100 0 (wsumGuard (List.replicate 10 (0 : ℚ)).sum) 1 ≤ 100) :=
  ⟨⟨by norm_num, by norm_num⟩,
   C10_share_safe (List.replicate 10 0) 100 0 1 (by norm_num) (by norm_num)⟩

theorem txnCount_eq (service : String) (cpu noise interval : ℚ) :
    txnCount service cpu noise interval =
      max 10 ⌊tps service cpu noise * interval / 5⌋ := by
  unfold txnCount pyInt
  have hm : (10 : ℚ) ≤ max 10 (tps service cpu noise * interval / 5) :=
    le_max_left _ _
  rw [if_neg (not_lt.mpr (le_trans (by norm_num) hm))]
  have h10 : ⌊(10 : ℚ)⌋ = 10 := by
    rw [Int.floor_eq_iff]
    norm_num
  rcases le_total (tps service cpu noise * interval / 5) 10 with h | h
  · rw [max_eq_left h, h10, max_eq_left (h10 ▸ Int.floor_le_floor h)]
  · rw [max_eq_right h, max_eq_right (Int.le_floor.mpr (by exact_mod_cast h))]

theorem range_pair_filter_len (n : ℕ) (f g : ℕ → Entry) (p : Entry → Bool)
    (hf : ∀ k, p (f k) = true) (hg : ∀ k, p (g k) = false) :
    (((List.range n).flatMap (fun k => [f k, g k])).filter p).length = n := by
  induction n with
  | zero => rfl
  | succ m ih =>
    rw [List.range_succ]
    simp [List.flatMap_append, List.filter_append, hf, hg, ih]

theorem range_pair_filter_len_snd (n : ℕ) (f g : ℕ → Entry) (p : Entry → Bool)
    (hf : ∀ k, p (f k) = false) (hg : ∀ k, p (g k) = true) :
    (((List.range n).flatMap (fun k => [f k, g k])).filter p).length = n := by
  induction n with
  | zero => rfl
  | succ m ih =>
    rw [List.range_succ]
    simp [List.flatMap_append, List.filter_append, hf, hg, ih]

/-- Claim C3 counterexample: at service DB2, cpu = 51, throughput noise 1
and interval 5, the computed rate is 120.8; the code truncates it to a
count of 120 while the claimed formula max(10, round(tps * interval / 5))
yields 121, so the claim fails on the code. -/
theorem C3_counterexample :
    txnCount ("DB2") 51 1 5 = 120 ∧ specTxnCount ("DB2") 51 1 5 = 121 ∧
    txnCount ("DB2") 51 1 5 ≠ specTxnCount ("DB2") 51 1 5 := by
  have hx : tps ("DB2") 51 1 * 5 / 5 = 604 / 5 := by
    unfold tps baseRate
    rw [if_neg (by decide)]
    norm_num
  have hfl : ⌊(604 / 5 : ℚ)⌋ = 120 := by
    rw [Int.floor_eq_iff]
    norm_num
  have h1 : txnCount ("DB2") 51 1 5 = 120 := by
    rw [txnCount_eq, hx, hfl, max_eq_right (by norm_num : (10 : ℤ) ≤ 120)]
  have h2 : specTxnCount ("DB2") 51 1 5 = 121 := by
    unfold specTxnCount
    rw [hx, round_eq]
    have hfl2 : ⌊(604 / 5 : ℚ) + 1 / 2⌋ = 121 := by
      rw [Int.floor_eq_iff]
      norm_num
    rw [hfl2, max_eq_right (by norm_num : (10 : ℤ) ≤ 121)]
  refine ⟨h1, h2, ?_⟩
  rw [h1, h2]
  norm_num

/-- Claim C3 as amended: the per-tick transaction count equals
max(10, floor(tps * interval / 5)) — Python int() truncates instead of
rounding — and the tick emits exactly that many latency observations and
that many counter increments per service. -/
theorem C3_txn_count_truncated (service : String) (cpu jobq tn : ℚ)
    (ld : ℕ → ℚ) (interval : ℚ) :
    txnCount service cpu tn interval =
      max 10 ⌊tps service cpu tn * interval / 5⌋ ∧
    ((serviceTxnEntries service cpu jobq tn ld interval).filter
        (fun e => e.1 == "mainframe_transaction_response_seconds")).length =
      (txnCount service cpu tn interval).toNat ∧
    ((serviceTxnEntries service cpu jobq tn ld interval).filter
        (fun e => e.1 == "mainframe_transactions_total")).length =
      (txnCount service cpu tn interval).toNat := by
  refine ⟨txnCount_eq service cpu tn interval, ?_, ?_⟩
  · unfold serviceTxnEntries
    exact range_pair_filter_len _ _ _ _ (fun k => rfl) (fun k => rfl)
  · unfold serviceTxnEntries
    exact range_pair_filter_len_snd _ _ _ _ (fun k => rfl) (fun k => rfl)

/-- Claim C6: every emitted latency observation is a strictly positive
log-normal draw multiplied by exactly (1 + jobq/400); the multiplier keeps
positive draws positive for any non-negative queue depth, and at
jobq = 400 the observation is exactly 2.0 times the same draw at
jobq = 0. -/
theorem C6_latency_pressure (service : String) (cpu jobq tn interval : ℚ)
    (ld : ℕ → ℚ) (hld : ∀ k, 0 < ld k) (hq : 0 ≤ jobq) :
    (∀ e ∈ serviceTxnEntries service cpu jobq tn ld interval,
        e.1 = "mainframe_transaction_response_seconds" → 0 < e.2.2) ∧
    (∀ x : ℚ, 0 < x → 0 < applyPressure jobq x) ∧
    (∀ k, applyPressure 400 (ld k) = 2 * applyPressure 0 (ld k)) := by
  have hmul : (0 : ℚ) < 1 + jobq / 400 := by
    have hd : (0 : ℚ) ≤ jobq / 400 := div_nonneg hq (by norm_num)
    linarith
  have hpos : ∀ x : ℚ, 0 < x → 0 < applyPressure jobq x := by
    intro x hx
    exact mul_pos hx hmul
  refine ⟨?_, hpos, ?_⟩
  · intro e he hname
    unfold serviceTxnEntries at he
    simp only [List.mem_flatMap, List.mem_range, List.mem_cons,
      List.not_mem_nil, or_false] at he
    obtain ⟨k, hk, hcase⟩ := he
    rcases hcase with h1 | h1
    · subst h1
      exact hpos _ (hld k)
    · subst h1
      simp at hname
  · intro k
    unfold applyPressure
    ring

/-- Witness for C6 at CICS, cpu = 50, jobq = 10, unit draws. -/
theorem C6_latency_pressure_witness :
    ((∀ k : ℕ, (0 : ℚ) < (fun _ : ℕ => (1 : ℚ)) k) ∧ (0 : ℚ) ≤ 10) ∧
    ((∀ e ∈ serviceTxnEntries ("CICS") 50 10 1 (fun _ : ℕ => (1 : ℚ)) 5,
        e.1 = "mainframe_transaction_response_seconds" → 0 < e.2.2) ∧
      (∀ x : ℚ, 0 < x → 0 < applyPressure 10 x) ∧
      (∀ k : ℕ, applyPressure 400 ((fun _ : ℕ => (1 : ℚ)) k) =
        2 * applyPressure 0 ((fun _ : ℕ => (1 : ℚ)) k))) :=
  ⟨⟨fun _ => by norm_num, by norm_num⟩,
   C6_latency_pressure ("CICS") 50 10 1 5 (fun _ => 1) (fun _ => by norm_num)
     (by norm_num)⟩

theorem nonUptime_uptimeEntry (u : ℚ) : nonUptime (uptimeEntry u) = false := rfl

theorem tickLpar_filter (s : LparState) (d : TickDraws) (i u u' : ℚ) :
    ((tickLpar s d i u).fst).filter nonUptime =
      ((tickLpar s d i u').fst).filter nonUptime := by
  simp [tickLpar, List.filter_append, nonUptime_uptimeEntry]

theorem tickConfig_snd_eq (st : List LparState) (ds : List TickDraws)
    (i u u' : ℚ) : (tickConfig st ds i u).snd = (tickConfig st ds i u').snd := rfl

theorem flatMap_tick_filter (l : List (LparState × TickDraws)) (i u u' : ℚ) :
    ((l.flatMap fun p => (tickLpar p.1 p.2 i u).fst).filter nonUptime) =
      ((l.flatMap fun p => (tickLpar p.1 p.2 i u').fst).filter nonUptime) := by
  induction l with
  | nil => rfl
  | cons a t ih =>
    simp only [List.flatMap_cons, List.filter_append]
    rw [tickLpar_filter a.1 a.2 i u u', ih]

theorem tickConfig_filter (st : List LparState) (ds : List TickDraws)
    (i u u' : ℚ) :
    ((tickConfig st ds i u).fst).filter nonUptime =
      ((tickConfig st ds i u').fst).filter nonUptime :=
  flatMap_tick_filter (st.zip ds) i u u'

/-- Claim C2 as amended: under a fixed configuration, two runs that consume
identical draw sequences (the same seed) emit identical value sequences
for every metric except the uptime gauge, whatever wall-clock uptimes the
two runs observe; uptime itself is wall-clock-dependent, not
seed-determined. -/
theorem C2_determinism_except_uptime (st : List LparState) (i : ℚ)
    (r₁ r₂ : List (List TickDraws × ℚ))
    (h : r₁.map Prod.fst = r₂.map Prod.fst) :
    (runConfig st i r₁).filter nonUptime =
      (runConfig st i r₂).filter nonUptime := by
  induction r₁ generalizing st r₂ with
  | nil =>
    cases r₂ with
    | nil => rfl
    | cons b t => simp at h
  | cons a t ih =>
    cases r₂ with
    | nil => simp at h
    | cons b r =>
      simp only [List.map_cons, List.cons.injEq] at h
      obtain ⟨hd, tl⟩ := h
      simp only [runConfig]
      rw [List.filter_append, List.filter_append, hd,
        tickConfig_filter st b.1 i a.2 b.2, tickConfig_snd_eq st b.1 i a.2 b.2]
      exact congrArg
        (fun l => ((tickConfig st b.1 i b.2).fst).filter nonUptime ++ l)
        (ih (tickConfig st b.1 i b.2).snd r tl)

/-- Witness for the amended C2: a one-tick run with the same draw record
and uptimes 0 and 1 agrees on every non-uptime emission. -/
theorem C2_determinism_except_uptime_witness :
    (([([sampleDraws], (0 : ℚ))].map Prod.fst) =
      ([([sampleDraws], (1 : ℚ))].map Prod.fst)) ∧
    (runConfig [sampleState] 5 [([sampleDraws], 0)]).filter nonUptime =
      (runConfig [sampleState] 5 [([sampleDraws], 1)]).filter nonUptime :=
  ⟨rfl, C2_determinism_except_uptime [sampleState] 5 _ _ rfl⟩

/-- Claim C2 counterexample: two runs with identical draw records (the
same seed and configuration) but different wall-clock uptimes emit
different value sequences — the uptime gauge differs — refuting
determinism for every metric including uptime. -/
theorem C2_counterexample :
    runConfig [sampleState] 5 [([sampleDraws], 0)] ≠
      runConfig [sampleState] 5 [([sampleDraws], 1)] := by
  intro h
  have h7 : (runConfig [sampleState] 5 [([sampleDraws], 0)])[7]? =
      (runConfig [sampleState] 5 [([sampleDraws], 1)])[7]? := by rw [h]
  have e0 : (runConfig [sampleState] 5 [([sampleDraws], 0)])[7]? =
      some (uptimeEntry 0) := rfl
  have e1 : (runConfig [sampleState] 5 [([sampleDraws], 1)])[7]? =
      some (uptimeEntry 1) := rfl
  rw [e0, e1] at h7
  norm_num [uptimeEntry] at h7

/-- Claim C4 counterexample: an empty LPAR environment value is silently
replaced by the default list ["LPAR1"] rather than being fatal, and with
the invalid interval -1 a tick still executes and emits metric values —
the process does enter Running. -/
theorem C4_counterexample :
    env_list [] defaultLparsCsv = [defaultLparsCsv] ∧
    runConfig [sampleState] (-1) [([sampleDraws], 0)] ≠ [] := by
  refine ⟨by decide, ?_⟩
  intro h
  have hs : (runConfig [sampleState] (-1) [([sampleDraws], 0)]).head?.isSome
      = true := rfl
  rw [h] at hs
  simp at hs

/-- Claim C4 as amended: the code validates nothing at startup — an LPAR
list that parses empty is replaced by the parsed default (so the running
LPAR list is never empty and no fatal error occurs), and a non-positive
tick interval does not prevent Running: a tick executes and emits a
non-empty list of metric values before any sleep. -/
theorem C4_no_startup_validation :
    (∀ raw : List Char, env_list raw defaultLparsCsv ≠ []) ∧
    (∀ (s : LparState) (d : TickDraws) (i u : ℚ), i ≤ 0 →
      (tickLpar s d i u).fst ≠ []) := by
  constructor
  · intro raw
    unfold env_list
    cases hp : parseCsv raw with
    | nil => exact by decide
    | cons a l => exact List.cons_ne_nil a l
  · intro s d i u hi h
    have hs : ((tickLpar s d i u).fst).head?.isSome = true := rfl
    rw [h] at hs
    simp at hs

/-- Witness for the amended C4 at the invalid interval -1. -/
theorem C4_no_startup_validation_witness :
    ((-1 : ℚ) ≤ 0) ∧ (tickLpar sampleState sampleDraws (-1) 0).fst ≠ [] :=
  ⟨by norm_num,
   C4_no_startup_validation.2 sampleState sampleDraws (-1) 0 (by norm_num)⟩

end MainframeSim
